import Mathlib

/-!
Verification of the plant-care application core against its source.

The embedding models local wall-clock time as a count of minutes since an
arbitrary epoch (an `Int`), with 1440 minutes to a calendar day and no DST
jumps.  A calendar day is the floor of that count divided by 1440, so the
day boundary falls at minute multiples of 1440.

Source files modelled here:
  - src/utils/watering.ts        (calculateNextWatering, getDaysUntilWatering)
  - src/utils/seasons.ts         (season lookup, hemisphere set)
  - src/services/claudeAPI.ts    (response validation, fallback table)
  - netlify generate-advice      (serverless handler normalisation)
  - useWateringAdvice hook       (fetchAndSave flow)
  - useMarkWatered hook          (markAsWatered)
  - notificationService + useNotificationScheduler (checkAndNotify)
  - src/utils/plantFilters.ts    (search / filter / sort pipeline)
-/

namespace PlantCare

/-- Minutes since the local epoch; the model of a JS `Date` instant in local time. -/
abbrev Timestamp := Int

/-- Minutes in one calendar day (the model has no DST transitions). -/
def minutesPerDay : Int := 1440

/-- Calendar day index holding a timestamp: floor division by the day length.
Models the year/month/day triple that date-fns calendar functions compare. -/
def calendarDay (t : Timestamp) : Int := Int.fdiv t minutesPerDay

/-- Model of date-fns `isSameDay`: equality of the local calendar-day components. -/
def isSameDay (a b : Timestamp) : Bool := calendarDay a == calendarDay b

/-- Model of date-fns `addDays`: calendar-safe day addition keeps the time of day
and moves the date, which in a DST-free minute count is adding n * 1440 minutes. -/
def addDays (t : Timestamp) (n : Int) : Timestamp := t + n * minutesPerDay

/-- Model of date-fns `differenceInDays a b`: the signed number of FULL days
between the two instants, i.e. the elapsed time truncated toward zero, not the
calendar-day difference.  Expressed as sign times the whole 1440-minute periods
in the absolute distance, which is exactly truncating division. -/
def differenceInDays (a b : Timestamp) : Int :=
  Int.sign (a - b) * (((a - b).natAbs / minutesPerDay.natAbs : Nat) : Int)

/-- Translation of `calculateNextWatering` from src/utils/watering.ts:
null when never watered, otherwise lastWatered plus frequencyDays days. -/
def calculateNextWatering (lastWatered : Option Timestamp) (frequencyDays : Int) :
    Option Timestamp :=
  match lastWatered with
  | none => none
  | some lw => some (addDays lw frequencyDays)

/-- Translation of `getDaysUntilWatering` from src/utils/watering.ts:
null passthrough, otherwise `differenceInDays(nextWateringDate, new Date())`.
The current instant is passed explicitly. -/
def getDaysUntilWatering (nextWateringDate : Option Timestamp) (now : Timestamp) :
    Option Int :=
  match nextWateringDate with
  | none => none
  | some d => some (differenceInDays d now)

/-! Season utilities from src/utils/seasons.ts. -/

/-- The four season labels; the source uses the Spanish strings
"Primavera", "Verano", "Otoño", "Invierno". -/
inductive Season where
  | primavera
  | verano
  | otono
  | invierno
  deriving DecidableEq, Repr

/-- Model of a JS `Date` as far as the season code observes it: the function
only ever calls `date.getMonth()`, which yields the 0-based local month. -/
structure JsDate where
  month : Fin 12
  deriving DecidableEq, Repr

/-- The `SOUTHERN_HEMISPHERE_COUNTRIES` set from src/utils/seasons.ts,
modelled as the list of its twelve string elements. -/
def SOUTHERN_HEMISPHERE_COUNTRIES : List String :=
  [ "Argentina"
  , "Chile"
  , "Perú"
  , "Brasil"
  , "Colombia"
  , "Uruguay"
  , "Paraguay"
  , "Bolivia"
  , "Ecuador"
  , "Australia"
  , "Nueva Zelanda"
  , "Sudáfrica" ]

/-- The `NORTH_SEASONS` month table (index 0 = January). -/
def NORTH_SEASONS : List Season :=
  [ .invierno, .invierno, .primavera, .primavera, .primavera, .verano
  , .verano, .verano, .otono, .otono, .otono, .invierno ]

/-- The `SOUTH_SEASONS` month table, shifted six months from the north. -/
def SOUTH_SEASONS : List Season :=
  [ .verano, .verano, .otono, .otono, .otono, .invierno
  , .invierno, .invierno, .primavera, .primavera, .primavera, .verano ]

/-- Translation of `isSouthernHemisphere`: exact membership in the set. -/
def isSouthernHemisphere (country : String) : Bool :=
  SOUTHERN_HEMISPHERE_COUNTRIES.contains country

/-- Translation of `getCurrentSeason`: pick the table by hemisphere and index it
by `date.getMonth()`.  The `getD` default is unreachable because the month is
below 12 and both tables have twelve entries. -/
def getCurrentSeason (country : String) (date : JsDate) : Season :=
  let seasons := if isSouthernHemisphere country then SOUTH_SEASONS else NORTH_SEASONS
  seasons.getD date.month.val .invierno

/-! Advice response validation, from src/services/claudeAPI.ts and the
netlify generate-advice serverless function.  Both start from the object
produced by `JSON.parse` on the model reply; the model begins at that parsed
object.  JSON cannot encode NaN or Infinity, so every numeric field is a
finite rational. -/

/-- A parsed JSON field value as far as the validators inspect it: a string,
a finite number, or anything else (null, boolean, array, object), which all
the `typeof` checks lump together. -/
inductive JValue where
  | jstr (s : String)
  | jnum (q : Rat)
  | jother
  deriving DecidableEq, Repr

/-- The parsed advice object (`Record<string, unknown>`): each of the four
expected keys is either absent or holds some JSON value. -/
structure ParsedAdvice where
  advice : Option JValue
  frequency_days : Option JValue
  best_time : Option JValue
  amount : Option JValue
  deriving DecidableEq, Repr

/-- The validated advice record (`WateringAdvice` in src/types). -/
structure WateringAdvice where
  advice : String
  frequencyDays : Int
  bestTime : String
  amount : String
  deriving DecidableEq, Repr

/-- Decidable equality for Except outcomes, so that concrete runs of the
validators can be evaluated inside statements. -/
instance {ε α : Type} [DecidableEq ε] [DecidableEq α] : DecidableEq (Except ε α) := fun a b =>
  match a, b with
  | .error e, .error f => decidable_of_iff (e = f) ⟨fun h => by rw [h], fun h => by injection h⟩
  | .ok x, .ok y => decidable_of_iff (x = y) ⟨fun h => by rw [h], fun h => by injection h⟩
  | .error _, .ok _ => isFalse fun h => by injection h
  | .ok _, .error _ => isFalse fun h => by injection h

/-- Model of JS `Math.round` on a finite number: round half toward positive
infinity, i.e. the floor of q + 1/2.  Written on the reduced fraction as the
floor division (2 num + den) / (2 den) so that the kernel can evaluate it;
the theorem `jsRound_eq_floor` below certifies the equation. -/
def jsRound (q : Rat) : Int := Int.fdiv (2 * q.num + (q.den : Int)) (2 * (q.den : Int))

/-- The three accepted best-time literals. -/
def validTimes : List String := ["mañana", "tarde", "noche"]

/-- The three accepted amount literals. -/
def validAmounts : List String := ["poca", "moderada", "abundante"]

/-- The advice string a validator reads off the parsed object: the field value
when it is a string, the empty string otherwise (`typeof parsed.advice ===
'string' ? parsed.advice : ''`). -/
def adviceStringOf (parsed : ParsedAdvice) : String :=
  match parsed.advice with
  | some (.jstr s) => s
  | _ => ""

/-- The frequency a validator computes: a numeric field is rounded and clamped
with `Math.min(30, Math.max(1, Math.round(raw)))`; anything else defaults to 7. -/
def frequencyOf (parsed : ParsedAdvice) : Int :=
  match parsed.frequency_days with
  | some (.jnum q) => min 30 (max 1 (jsRound q))
  | _ => 7

/-- The best-time a validator computes: a string in `validTimes` is kept,
anything else defaults to "mañana". -/
def bestTimeOf (parsed : ParsedAdvice) : String :=
  match parsed.best_time with
  | some (.jstr s) => if validTimes.contains s then s else "mañana"
  | _ => "mañana"

/-- The amount a validator computes: a string in `validAmounts` is kept,
anything else defaults to "moderada". -/
def amountOf (parsed : ParsedAdvice) : String :=
  match parsed.amount with
  | some (.jstr s) => if validAmounts.contains s then s else "moderada"
  | _ => "moderada"

/-- Translation of the validation half of `parseAdviceResponse` in
src/services/claudeAPI.ts (the development direct-parse path): an absent,
non-string or empty advice field throws; the other three fields are
normalised with defaults. -/
def parseAdviceResponse (parsed : ParsedAdvice) : Except String WateringAdvice :=
  let advice := adviceStringOf parsed
  if advice = "" then
    .error "La IA no proporcionó consejos de texto"
  else
    .ok { advice := advice
        , frequencyDays := frequencyOf parsed
        , bestTime := bestTimeOf parsed
        , amount := amountOf parsed }

/-- The JSON body of a 200 response from the generate-advice serverless
function (its error responses carry a non-2xx status and are rejected by the
client before field conversion). -/
structure ServerlessBody where
  advice : String
  frequency_days : Int
  best_time : String
  amount : String
  deriving DecidableEq, Repr

/-- Translation of the normalisation step of the netlify generate-advice
handler (lines validating the parsed model reply): same field rules as the
client validator except that the advice string is passed through unchecked,
so an absent or non-string advice becomes the empty string in a 200 reply. -/
def handlerNormalize (parsed : ParsedAdvice) : ServerlessBody :=
  { advice := adviceStringOf parsed
  , frequency_days := frequencyOf parsed
  , best_time := bestTimeOf parsed
  , amount := amountOf parsed }

/-- Translation of the response conversion in `generateAdviceProduction`
(src/services/claudeAPI.ts, success branch): `data.advice || ''` keeps the
string (the empty string stays empty), `data.frequency_days || 7` replaces a
zero by 7 and performs NO clamping, and the two tag fields are revalidated. -/
def generateAdviceProduction (data : ServerlessBody) : WateringAdvice :=
  { advice := data.advice
  , frequencyDays := if data.frequency_days = 0 then 7 else data.frequency_days
  , bestTime := if validTimes.contains data.best_time then data.best_time else "mañana"
  , amount := if validAmounts.contains data.amount then data.amount else "moderada" }

/-- The production serverless-proxied path end to end on a model reply that
reached the handler and came back with status 200: handler normalisation
followed by the client conversion. -/
def productionPath (parsed : ParsedAdvice) : WateringAdvice :=
  generateAdviceProduction (handlerNormalize parsed)

/-- Translation of `getFallbackAdvice` from src/services/claudeAPI.ts: the
static per-type table, with a generic default for unknown types. -/
def getFallbackAdvice (plantType : String) : WateringAdvice :=
  if plantType = "Suculenta" then
    { advice := "Las suculentas almacenan agua en sus hojas. Riega solo cuando el sustrato esté completamente seco. Evita mojar las hojas directamente."
    , frequencyDays := 7, bestTime := "mañana", amount := "poca" }
  else if plantType = "Cactus" then
    { advice := "Los cactus necesitan muy poca agua. Deja secar el sustrato por completo entre riegos. En invierno reduce la frecuencia a la mitad."
    , frequencyDays := 10, bestTime := "mañana", amount := "poca" }
  else if plantType = "Hortaliza" then
    { advice := "Las hortalizas necesitan riego frecuente y constante. Mantén el sustrato húmedo pero no encharcado. Riega en la base, no sobre las hojas."
    , frequencyDays := 2, bestTime := "mañana", amount := "abundante" }
  else if plantType = "Hierba aromatica" then
    { advice := "Las hierbas aromáticas prefieren suelo ligeramente húmedo. No las encharques. Riega cuando la capa superior del sustrato esté seca."
    , frequencyDays := 3, bestTime := "mañana", amount := "moderada" }
  else if plantType = "Arbol frutal" then
    { advice := "Los árboles frutales necesitan riego profundo y espaciado. Riega abundantemente y deja que el suelo se seque parcialmente entre riegos."
    , frequencyDays := 5, bestTime := "mañana", amount := "abundante" }
  else if plantType = "Planta de flor" then
    { advice := "Las plantas con flor necesitan riego regular para mantener la floración. Mantén el sustrato húmedo sin encharcar. Riega en la base."
    , frequencyDays := 3, bestTime := "mañana", amount := "moderada" }
  else if plantType = "Helecho" then
    { advice := "Los helechos necesitan humedad constante. Mantén el sustrato siempre ligeramente húmedo y pulveriza las hojas regularmente."
    , frequencyDays := 3, bestTime := "tarde", amount := "moderada" }
  else if plantType = "Trepadora" then
    { advice := "Las trepadoras suelen necesitar riego regular. Riega cuando la capa superior del sustrato esté seca. Aumenta en épocas de crecimiento."
    , frequencyDays := 3, bestTime := "mañana", amount := "moderada" }
  else if plantType = "Arbusto" then
    { advice := "Los arbustos establecidos son resistentes. Riega profundamente pero con menor frecuencia. Deja secar parcialmente entre riegos."
    , frequencyDays := 4, bestTime := "mañana", amount := "moderada" }
  else
    { advice := "Riega cuando la capa superior del sustrato esté seca al tacto. Evita el encharcamiento y asegúrate de que la maceta tenga buen drenaje."
    , frequencyDays := 3, bestTime := "mañana", amount := "moderada" }

/-! Data model (src/types): the persisted advice record and the plant. -/

/-- The `PlantWateringAdvice` record persisted inside a plant. -/
structure PlantWateringAdvice where
  text : String
  frequencyDays : Int
  bestTime : String
  amount : String
  generatedAt : Timestamp
  season : Season
  location : String
  isFallback : Bool
  deriving DecidableEq, Repr

/-- The `Plant` record as the core components observe it. -/
structure Plant where
  id : String
  nickname : Option String
  species : String
  type : String
  createdAt : Timestamp
  lastWatered : Option Timestamp
  wateringAdvice : Option PlantWateringAdvice
  deriving DecidableEq, Repr

/-- The location slice of `UserSettings` that the advice flow reads. -/
structure LocationSettings where
  country : String
  city : Option String
  deriving DecidableEq, Repr

/-! The advice acquisition flow: `fetchAndSave` in the useWateringAdvice hook. -/

/-- Per-plant advice acquisition status, the state machine of the hook. -/
inductive AdviceStatus where
  | loading
  | success
  | error
  deriving DecidableEq, Repr

/-- Environment of one `fetchAndSave` run: the outcome of the awaited API call
(`generateWateringAdvice` either resolves or throws) and whether each of the
two possible `db.plants.update` writes would succeed. -/
structure FetchEnv where
  apiResult : Except String WateringAdvice
  primarySaveOk : Bool
  fallbackSaveOk : Bool
  deriving Repr

/-- Observable outcome of one `fetchAndSave` run: the final status, the advice
shown to the user, the advice actually written to storage (none when no write
succeeded), the fallback flag and the error message. -/
structure FetchOutcome where
  status : AdviceStatus
  shownAdvice : Option PlantWateringAdvice
  savedAdvice : Option PlantWateringAdvice
  isFallback : Bool
  errorMessage : Option String
  deriving DecidableEq, Repr

/-- The location display string built by `getLocationText`. -/
def getLocationText (settings : LocationSettings) : String :=
  match settings.city with
  | some city => city ++ ", " ++ settings.country
  | none => settings.country

/-- The catch branch of `fetchAndSave`: wrap the static fallback for the
plant type, attempt the inner save (a failure there is only logged and
swallowed), and finish in success. -/
def fallbackOutcome (plant : Plant) (season : Season) (locationText : String)
    (now : Timestamp) (env : FetchEnv) : FetchOutcome :=
  let fallback := getFallbackAdvice plant.type
  let fallbackAdvice : PlantWateringAdvice :=
    { text := fallback.advice
    , frequencyDays := fallback.frequencyDays
    , bestTime := fallback.bestTime
    , amount := fallback.amount
    , generatedAt := now
    , season := season
    , location := locationText
    , isFallback := true }
  { status := .success
  , shownAdvice := some fallbackAdvice
  , savedAdvice := if env.fallbackSaveOk then some fallbackAdvice else none
  , isFallback := true
  , errorMessage := none }

/-- Translation of `fetchAndSave` from the useWateringAdvice hook.

Control flow of the source, kept branch for branch:
  - missing plant or settings: early return, nothing changes;
  - cached advice and not a regeneration: immediate success with the cache;
  - otherwise the API call is awaited inside a try block together with the
    primary `db.plants.update`; ANY throw in that block (network failure,
    malformed response, non-2xx status, or the primary save itself) lands in
    the catch, which builds the static fallback, tries to persist it inside
    an inner try whose catch only logs, and then sets status to success;
  - the trailing `if (!usedFallback && status === 'error')` only consults the
    stale closed-over status value, so it is modelled with `prevStatus`.

The current month feeds `getCurrentSeason` for the metadata. -/
def fetchAndSave (plant : Option Plant) (settings : Option LocationSettings)
    (isRegeneration : Bool) (prevStatus : AdviceStatus) (now : Timestamp)
    (nowDate : JsDate) (env : FetchEnv) : FetchOutcome :=
  match plant, settings with
  | some plant, some settings =>
    if ¬isRegeneration ∧ plant.wateringAdvice.isSome then
      { status := .success
      , shownAdvice := plant.wateringAdvice
      , savedAdvice := none
      , isFallback := (plant.wateringAdvice.map (·.isFallback)).getD false
      , errorMessage := none }
    else
      let locationText := getLocationText settings
      let season := getCurrentSeason settings.country nowDate
      match env.apiResult with
      | .ok result =>
        let persistedAdvice : PlantWateringAdvice :=
          { text := result.advice
          , frequencyDays := result.frequencyDays
          , bestTime := result.bestTime
          , amount := result.amount
          , generatedAt := now
          , season := season
          , location := locationText
          , isFallback := false }
        if env.primarySaveOk then
          { status := .success
          , shownAdvice := some persistedAdvice
          , savedAdvice := some persistedAdvice
          , isFallback := false
          , errorMessage :=
              if prevStatus = .error then
                some "No se pudieron generar consejos. Intenta de nuevo."
              else none }
        else
          fallbackOutcome plant season locationText now env
      | .error _ =>
        fallbackOutcome plant season locationText now env
  | _, _ =>
    { status := prevStatus
    , shownAdvice := none
    , savedAdvice := none
    , isFallback := false
    , errorMessage := none }

/-! The watering action: `markAsWatered` in the useMarkWatered hook. -/

/-- A `WateringLog` record: identifier, owning plant, watering instant. -/
structure WateringLog where
  id : String
  plantId : String
  wateredAt : Timestamp
  deriving DecidableEq, Repr

/-- The two collections the watering action touches. -/
structure WateringDb where
  plants : List Plant
  wateringLogs : List WateringLog
  deriving DecidableEq, Repr

/-- JS truthiness of a `string | undefined` value: false exactly for
`undefined` and the empty string. -/
def jsTruthyString (s : Option String) : Bool :=
  match s with
  | none => false
  | some s => s ≠ ""

/-- The derived `alreadyWateredToday` value of the hook:
`lastWatered !== null && isToday(lastWatered)`. -/
def alreadyWateredToday (lastWatered : Option Timestamp) (now : Timestamp) : Bool :=
  match lastWatered with
  | none => false
  | some lw => isSameDay lw now

/-- Translation of `markAsWatered` from the useMarkWatered hook, as the effect
on the two collections.  The guard returns unchanged when the plant id is
falsy, a marking is already in flight, or the plant was already watered on
the current calendar day.  Otherwise a single `now` instant is taken and a
two-write Dexie transaction appends the log and updates the plant summary
field; `txOk` is false when the transaction throws, in which case it rolls
back and neither write lands. -/
def markAsWatered (plantId : Option String) (lastWatered : Option Timestamp)
    (isMarking : Bool) (now : Timestamp) (newLogId : String) (txOk : Bool)
    (db : WateringDb) : WateringDb :=
  if ¬jsTruthyString plantId ∨ isMarking ∨ alreadyWateredToday lastWatered now then
    db
  else
    match plantId with
    | none => db
    | some pid =>
      if txOk then
        { plants := db.plants.map fun p =>
            if p.id = pid then { p with lastWatered := some now } else p
        , wateringLogs := db.wateringLogs ++ [{ id := newLogId, plantId := pid, wateredAt := now }] }
      else
        db

/-! The notification scheduler: notificationService plus the checkAndNotify
tick of useNotificationScheduler. -/

/-- The slice of `UserSettings` the scheduler reads and writes. -/
structure UserSettings where
  notificationsEnabled : Bool
  notificationPermission : String
  notificationTime : String
  lastNotificationSent : Option Timestamp
  deriving DecidableEq, Repr

/-- Lexicographic comparison of char lists by code point; the recursion model
of the JS string less-than. -/
def charListLt : List Char → List Char → Bool
  | [], [] => false
  | [], _ :: _ => true
  | _ :: _, [] => false
  | a :: as, b :: bs =>
    if a.toNat < b.toNat then true
    else if b.toNat < a.toNat then false
    else charListLt as bs

/-- Model of the JS `<` operator on strings: lexicographic by UTF-16 code
unit, which on the zero-padded HH:MM strings compared here coincides with
code-point order. -/
def jsStringLt (a b : String) : Bool :=
  charListLt a.toList b.toList

/-- Zero-padded two-digit decimal rendering of a value below 100. -/
def pad2 (n : Nat) : String :=
  if n < 10 then "0" ++ toString n else toString n

/-- Model of `format(now, 'HH:mm')`: the local time of day of the instant as a
zero-padded string. -/
def formatHHMM (t : Timestamp) : String :=
  let minuteOfDay := (Int.emod t minutesPerDay).toNat
  pad2 (minuteOfDay / 60) ++ ":" ++ pad2 (minuteOfDay % 60)

/-- Translation of `shouldSendNotification` from notificationService: enabled,
permission granted, current HH:mm string at or past the configured time
(plain string comparison), and nothing sent yet on the current calendar day. -/
def shouldSendNotification (settings : UserSettings) (now : Timestamp) : Bool :=
  if ¬settings.notificationsEnabled then
    false
  else if settings.notificationPermission ≠ "granted" then
    false
  else if jsStringLt (formatHHMM now) settings.notificationTime then
    false
  else
    match settings.lastNotificationSent with
    | some t => !(isSameDay t now)
    | none => true

/-- A plant entry in the needs-water list built by the scheduler. -/
structure PlantNeedingWater where
  id : String
  displayName : String
  daysOverdue : Int
  deriving DecidableEq, Repr

/-- Translation of `getPlantsNeedingWater` from notificationService: keep the
plants whose days-until-watering is null (never watered) or at most zero,
with the overdue count as absolute value. -/
def getPlantsNeedingWater (plants : List Plant) (now : Timestamp) :
    List PlantNeedingWater :=
  plants.filterMap fun plant =>
    let frequencyDays := (plant.wateringAdvice.map (·.frequencyDays)).getD 7
    let nextWatering := calculateNextWatering plant.lastWatered frequencyDays
    match getDaysUntilWatering nextWatering now with
    | none =>
      some { id := plant.id
           , displayName := plant.nickname.getD plant.species
           , daysOverdue := 0 }
    | some d =>
      if d ≤ 0 then
        some { id := plant.id
             , displayName := plant.nickname.getD plant.species
             , daysOverdue := |d| }
      else
        none

/-- Translation of `markNotificationSent` from notificationService: set the
last-sent stamp to now; the surrounding try/catch swallows a storage failure,
modelled by the `updateOk` flag. -/
def markNotificationSent (settings : UserSettings) (now : Timestamp)
    (updateOk : Bool) : UserSettings :=
  if updateOk then { settings with lastNotificationSent := some now } else settings

/-- Translation of one `checkAndNotify` tick of useNotificationScheduler,
returning the settings record after the tick and whether a notification was
dispatched.  `sendOk` is the boolean result of `sendWateringNotification`
(false on missing API, missing permission, or a constructor throw).  The
source records the sent stamp when the needs-water list is empty, or after a
dispatch that returned true; a failed dispatch records nothing. -/
def checkAndNotify (settings : Option UserSettings) (now : Timestamp)
    (plantsNeedingWater : List PlantNeedingWater) (sendOk : Bool)
    (updateOk : Bool) : Option UserSettings × Bool :=
  match settings with
  | none => (none, false)
  | some s =>
    if ¬shouldSendNotification s now then
      (some s, false)
    else if plantsNeedingWater.isEmpty then
      (some (markNotificationSent s now updateOk), false)
    else if sendOk then
      (some (markNotificationSent s now updateOk), true)
    else
      (some s, false)

/-! The urgency classifier and the filter/sort engine. -/

/-- The three-level urgency tag. -/
inductive UrgencyLevel where
  | urgent
  | warning
  | ok
  deriving DecidableEq, Repr

/-- Modelled from the spec: `getWateringUrgency` is imported from
src/utils/watering by the filter engine, the plant card and the home page,
but its defining module is not among the available source files.  Spec
section 4.2
fixes the algorithm: frequency defaults to 7 absent advice, then d =
daysUntilDue(nextDueDate(lastWatered, frequency)); d null or d ≤ 0 is Urgent,
d = 1 is Warning, d > 1 is Ok. -/
def getWateringUrgency (plant : Plant) (now : Timestamp) : UrgencyLevel :=
  let frequencyDays := (plant.wateringAdvice.map (·.frequencyDays)).getD 7
  let next := calculateNextWatering plant.lastWatered frequencyDays
  match getDaysUntilWatering next now with
  | none => .urgent
  | some d => if d ≤ 0 then .urgent else if d = 1 then .warning else .ok

/-- The watering-status filter selector. -/
inductive WateringStatusFilter where
  | all
  | needs_water
  | ok
  | no_data
  deriving DecidableEq, Repr

/-- The sort selector. -/
inductive PlantSortOption where
  | next_watering
  | alphabetical
  | newest
  | last_watered
  deriving DecidableEq, Repr

/-- The `PlantFilterOptions` record. -/
structure PlantFilterOptions where
  searchTerm : String
  wateringStatus : WateringStatusFilter
  plantType : Option String
  sortBy : PlantSortOption
  deriving DecidableEq, Repr

/-- Model of JS `String.prototype.includes`: substring containment. -/
def jsIncludes (hay needle : String) : Bool :=
  decide (needle.toList <:+: hay.toList)

/-- Translation of `searchPlants` from the filter module: trim and lowercase
the term; an empty term passes the input through; otherwise keep the plants
where any of nickname (empty when absent), species or type contains the term,
all lowercased. -/
def searchPlants (plants : List Plant) (searchTerm : String) : List Plant :=
  let trimmed := searchTerm.trim.toLower
  if trimmed = "" then plants
  else
    plants.filter fun plant =>
      let nickname := ((plant.nickname.map String.toLower).getD "")
      let species := plant.species.toLower
      let ptype := plant.type.toLower
      jsIncludes nickname trimmed || jsIncludes species trimmed || jsIncludes ptype trimmed

/-- Translation of `filterByWateringStatus` from the filter module: `all`
passes the input through; `no_data` keeps the never-watered plants; the two
remaining cases consult the urgency classifier per plant. -/
def filterByWateringStatus (plants : List Plant) (status : WateringStatusFilter)
    (now : Timestamp) : List Plant :=
  if status = .all then plants
  else
    plants.filter fun plant =>
      if status = .no_data then
        plant.lastWatered.isNone
      else
        let urgency := getWateringUrgency plant now
        match status with
        | .needs_water => urgency = .urgent ∨ urgency = .warning
        | .ok => urgency = .ok
        | _ => true

/-- Translation of `filterByType`: null passes everything, otherwise exact
type equality. -/
def filterByType (plants : List Plant) (plantType : Option String) : List Plant :=
  match plantType with
  | none => plants
  | some t => plants.filter fun plant => plant.type = t

/-- Translation of `getDisplayName`: `plant.nickname || plant.species`
(an absent or empty nickname falls back to the species). -/
def getDisplayName (plant : Plant) : String :=
  match plant.nickname with
  | some n => if n = "" then plant.species else n
  | none => plant.species

/-- The `urgencyOrder` table of the next-watering comparator. -/
def urgencyOrder (u : UrgencyLevel) : Int :=
  match u with
  | .urgent => 0
  | .warning => 1
  | .ok => 2

/-- The next-watering comparator: urgency tier first, then days until
watering ascending with null mapped to -999. -/
def compareNextWatering (now : Timestamp) (a b : Plant) : Int :=
  let urgencyDiff := urgencyOrder (getWateringUrgency a now)
    - urgencyOrder (getWateringUrgency b now)
  if urgencyDiff ≠ 0 then urgencyDiff
  else
    let freqA := (a.wateringAdvice.map (·.frequencyDays)).getD 7
    let freqB := (b.wateringAdvice.map (·.frequencyDays)).getD 7
    let daysA := (getDaysUntilWatering (calculateNextWatering a.lastWatered freqA) now).getD (-999)
    let daysB := (getDaysUntilWatering (calculateNextWatering b.lastWatered freqB) now).getD (-999)
    daysA - daysB

/-- Model of `localeCompare(..., 'es')` as a deterministic total comparison;
locale collation is abstracted to code-point order, which preserves every
property used here (a fixed consistent comparator). -/
def stringCompare (a b : String) : Int :=
  if a < b then -1 else if b < a then 1 else 0

/-- The alphabetical comparator: display names under `stringCompare`. -/
def compareAlphabetical (a b : Plant) : Int :=
  stringCompare (getDisplayName a) (getDisplayName b)

/-- The newest comparator: descending creation instant. -/
def compareNewest (a b : Plant) : Int :=
  b.createdAt - a.createdAt

/-- The last-watered comparator: descending watering instant, null after
every non-null, nulls tied. -/
def compareLastWatered (a b : Plant) : Int :=
  match a.lastWatered, b.lastWatered with
  | none, none => 0
  | none, some _ => 1
  | some _, none => -1
  | some la, some lb => lb - la

/-- Translation of `sortPlants`: a stable sort of a copy of the input under
the comparator selected by `sortBy`.  JS `Array.prototype.sort` is stable and
every comparator above is consistent, so the stable merge sort with the
non-strict comparator order produces the same sequence. -/
def sortPlants (plants : List Plant) (sortBy : PlantSortOption) (now : Timestamp) :
    List Plant :=
  match sortBy with
  | .next_watering => plants.mergeSort fun a b => decide (compareNextWatering now a b ≤ 0)
  | .alphabetical => plants.mergeSort fun a b => decide (compareAlphabetical a b ≤ 0)
  | .newest => plants.mergeSort fun a b => decide (compareNewest a b ≤ 0)
  | .last_watered => plants.mergeSort fun a b => decide (compareLastWatered a b ≤ 0)

/-- Translation of `applyFilters`: search, status filter, type filter, sort,
strictly in that order, at the level of array contents. -/
def applyFilters (plants : List Plant) (options : PlantFilterOptions)
    (now : Timestamp) : List Plant :=
  let result := plants
  let result := searchPlants result options.searchTerm
  let result := filterByWateringStatus result options.wateringStatus now
  let result := filterByType result options.plantType
  sortPlants result options.sortBy now

/-! Reference-level model of the same pipeline, tracking array identity so
that mutation of the caller array is expressible.  A store holds the contents
of every live array; stages that return their argument unchanged keep the
same reference, stages that build a new array allocate, and the sort stage
allocates a copy and then overwrites that copy in place, exactly as
`const sorted = [...plants]; sorted.sort(...)` does. -/

/-- An array reference: an index into the store. -/
abbrev Ref := Nat

/-- The store of live plant arrays. -/
abbrev ArrayStore := List (List Plant)

/-- Contents of a reference. -/
def readRef (st : ArrayStore) (r : Ref) : List Plant :=
  (st[r]?).getD []

/-- Allocate a fresh array holding the given contents. -/
def allocRef (st : ArrayStore) (xs : List Plant) : ArrayStore × Ref :=
  (st ++ [xs], st.length)

/-- Overwrite the contents of an existing reference in place. -/
def writeRef (st : ArrayStore) (r : Ref) (xs : List Plant) : ArrayStore :=
  st.set r xs

/-- `searchPlants` at the reference level: empty trimmed term returns the
argument reference itself, otherwise `filter` allocates a new array. -/
def searchPlantsRef (st : ArrayStore) (r : Ref) (searchTerm : String) :
    ArrayStore × Ref :=
  if searchTerm.trim.toLower = "" then (st, r)
  else allocRef st (searchPlants (readRef st r) searchTerm)

/-- `filterByWateringStatus` at the reference level: `all` returns the
argument reference itself. -/
def filterByWateringStatusRef (st : ArrayStore) (r : Ref)
    (status : WateringStatusFilter) (now : Timestamp) : ArrayStore × Ref :=
  if status = .all then (st, r)
  else allocRef st (filterByWateringStatus (readRef st r) status now)

/-- `filterByType` at the reference level: null returns the argument
reference itself. -/
def filterByTypeRef (st : ArrayStore) (r : Ref) (plantType : Option String) :
    ArrayStore × Ref :=
  match plantType with
  | none => (st, r)
  | some _ => allocRef st (filterByType (readRef st r) plantType)

/-- `sortPlants` at the reference level: allocate the spread copy, then sort
that copy in place and return it; the argument array is never written. -/
def sortPlantsRef (st : ArrayStore) (r : Ref) (sortBy : PlantSortOption)
    (now : Timestamp) : ArrayStore × Ref :=
  let xs := readRef st r
  (writeRef (st ++ [xs]) st.length (sortPlants xs sortBy now), st.length)

/-- `applyFilters` at the reference level: the four stages chained on
references. -/
def applyFiltersRef (st : ArrayStore) (r : Ref) (options : PlantFilterOptions)
    (now : Timestamp) : ArrayStore × Ref :=
  let res1 := searchPlantsRef st r options.searchTerm
  let res2 := filterByWateringStatusRef res1.1 res1.2 options.wateringStatus now
  let res3 := filterByTypeRef res2.1 res2.2 options.plantType
  sortPlantsRef res3.1 res3.2 options.sortBy now

/-! Theorems. -/

/-- Certification that jsRound is the floor of q + 1/2, i.e. JS Math.round
on a finite number. -/
theorem jsRound_eq_floor (q : Rat) : jsRound q = Int.floor (q + (1 : Rat) / 2) := by
  rw [jsRound]
  have hden : (0 : Int) ≤ 2 * (q.den : Int) := by positivity
  rw [Int.fdiv_eq_ediv _ hden]
  have hq : q + (1 : Rat) / 2
      = ((2 * q.num + (q.den : Int) : Int) : Rat) / ((2 * q.den : Nat) : Rat) := by
    rw [eq_div_iff (by positivity)]
    push_cast
    rw [mul_comm]
    nth_rewrite 2 [← Rat.num_div_den q]
    field_simp
    ring
  rw [hq, Rat.floor_intCast_div_natCast]
  push_cast
  ring_nf

/-- C10: the Southern-Hemisphere lookup contains exactly the twelve
Spanish-spelled country names, matched by exact string equality; the
equatorial countries Colombia and Ecuador are classified Southern, while
other spellings of listed countries ("Brazil", "Peru") and unlisted
countries are classified Northern. -/
theorem southern_hemisphere_set_exact :
    (∀ c : String, isSouthernHemisphere c = true ↔
      c ∈ [ "Argentina", "Chile", "Perú", "Brasil", "Colombia", "Uruguay"
          , "Paraguay", "Bolivia", "Ecuador", "Australia", "Nueva Zelanda"
          , "Sudáfrica" ])
    ∧ SOUTHERN_HEMISPHERE_COUNTRIES.length = 12
    ∧ SOUTHERN_HEMISPHERE_COUNTRIES.Nodup
    ∧ isSouthernHemisphere "Colombia" = true
    ∧ isSouthernHemisphere "Ecuador" = true
    ∧ isSouthernHemisphere "Brazil" = false
    ∧ isSouthernHemisphere "Peru" = false := by
  refine ⟨fun c => ?_, by decide, by decide, by decide, by decide, by decide, by decide⟩
  simp [isSouthernHemisphere, SOUTHERN_HEMISPHERE_COUNTRIES]

/-- C5 counterexample: in the source, Argentina is in the southern set and
SOUTH_SEASONS maps month index 6 (July) to Invierno (Winter), not Verano
(Summer) as the claim states. -/
theorem getCurrentSeason_argentina_july_cex :
    getCurrentSeason "Argentina" ⟨(6 : Fin 12)⟩ = .invierno
    ∧ getCurrentSeason "Argentina" ⟨(6 : Fin 12)⟩ ≠ .verano := by
  decide

/-- C5 amended: for a user whose country is "Argentina" and any date falling
in July (month index 6), the season lookup returns Winter — the Northern
assignment for July is Summer and the Southern assignment is shifted by six
months. -/
theorem getCurrentSeason_argentina_july (date : JsDate)
    (h : date.month = (6 : Fin 12)) :
    getCurrentSeason "Argentina" date = .invierno := by
  obtain ⟨m⟩ := date
  cases h
  decide

/-- C5 witness: the amended theorem applied to the concrete July date. -/
theorem getCurrentSeason_argentina_july_witness :
    getCurrentSeason "Argentina" ⟨(6 : Fin 12)⟩ = Season.invierno :=
  getCurrentSeason_argentina_july ⟨(6 : Fin 12)⟩ rfl

/-- C1 counterexample: a due instant at minute 1441 (00:01 of day 1) against
a now at minute 1439 (23:59 of day 0) lies on the very next calendar day,
yet getDaysUntilWatering returns 0, not the 1 the claim requires, because
date-fns differenceInDays counts full elapsed days. -/
theorem getDaysUntilWatering_calendar_cex :
    calendarDay 1439 + 1 = calendarDay 1441
    ∧ getDaysUntilWatering (some 1441) 1439 = some 0
    ∧ getDaysUntilWatering (some 1441) 1439 ≠ some 1 := by
  refine ⟨by decide, ?_, ?_⟩ <;> decide

/-- C1 amended: getDaysUntilWatering is a null passthrough (null exactly when
the due date is null) and otherwise returns the signed count of FULL
1440-minute days between the due instant and now, truncated toward zero — so
it returns 0 precisely when less than one full day separates the two
instants (a due timestamp at 00:01 against a now of 23:59 the previous
calendar day gives 0, not 1), and a nonzero k only when at least k full days
separate them, with the sign indicating future or overdue. -/
theorem getDaysUntilWatering_elapsed_days (now : Timestamp) (due : Option Timestamp) :
    (getDaysUntilWatering due now = none ↔ due = none)
    ∧ ∀ d : Timestamp, due = some d →
        ((getDaysUntilWatering due now = some 0) ↔ (d - now).natAbs < 1440)
        ∧ ∀ k : Int, getDaysUntilWatering due now = some k →
            1440 * k.natAbs ≤ (d - now).natAbs
            ∧ (d - now).natAbs < 1440 * (k.natAbs + 1)
            ∧ (0 < k → now < d)
            ∧ (k < 0 → d < now) := by
  constructor
  · cases due <;> simp [getDaysUntilWatering]
  · intro d hd
    subst hd
    have hval : getDaysUntilWatering (some d) now
        = some (Int.sign (d - now) * (((d - now).natAbs / 1440 : Nat) : Int)) := rfl
    constructor
    · rw [hval]
      constructor
      · intro h
        have h0 : Int.sign (d - now) * (((d - now).natAbs / 1440 : Nat) : Int) = 0 :=
          Option.some_injective _ h
        rcases mul_eq_zero.mp h0 with hs | hq
        · have hz : d - now = 0 := Int.sign_eq_zero_iff_zero.mp hs
          rw [hz]
          norm_num
        · have hq0 : (d - now).natAbs / 1440 = 0 := Int.natCast_eq_zero.mp hq
          exact (Nat.div_eq_zero_iff (by norm_num)).mp hq0
      · intro h
        have hq0 : (d - now).natAbs / 1440 = 0 := (Nat.div_eq_zero_iff (by norm_num)).mpr h
        rw [hq0]
        simp
    · intro k hk
      rw [hval] at hk
      have hk0 : k = Int.sign (d - now) * (((d - now).natAbs / 1440 : Nat) : Int) :=
        (Option.some_injective _ hk).symm
      have hdiv : 1440 * ((d - now).natAbs / 1440) ≤ (d - now).natAbs
          ∧ (d - now).natAbs < 1440 * ((d - now).natAbs / 1440 + 1) := by
        have h := Nat.div_add_mod (d - now).natAbs 1440
        have h2 : (d - now).natAbs % 1440 < 1440 := Nat.mod_lt _ (by norm_num)
        omega
      by_cases hz : d - now = 0
      · have hk00 : k = 0 := by
          rw [hk0, hz]
          simp
        have hn0 : (d - now).natAbs = 0 := by
          rw [hz]
          rfl
        refine ⟨?_, ?_, ?_, ?_⟩ <;> simp [hk00, hn0]
      · have h1 : (Int.sign (d - now)).natAbs = 1 := by
          rw [Int.natAbs_sign, if_neg hz]
        have habs : k.natAbs = (d - now).natAbs / 1440 := by
          rw [hk0, Int.natAbs_mul, h1, one_mul, Int.natAbs_ofNat]
        refine ⟨?_, ?_, ?_, ?_⟩
        · rw [habs]
          exact hdiv.1
        · rw [habs]
          exact hdiv.2
        · intro hpos
          by_contra hlt
          push_neg at hlt
          have hneg : d - now < 0 := (sub_nonpos.mpr hlt).lt_of_ne hz
          rw [Int.sign_eq_neg_one_of_neg hneg] at hk0
          have hk1 : (0 : Int) ≤ (((d - now).natAbs / 1440 : Nat) : Int) := Int.natCast_nonneg _
          omega
        · intro hneg2
          by_contra hlt
          push_neg at hlt
          have hpos : 0 < d - now := (sub_nonneg.mpr hlt).lt_of_ne (Ne.symm hz)
          rw [Int.sign_eq_one_of_pos hpos] at hk0
          have hk1 : (0 : Int) ≤ (((d - now).natAbs / 1440 : Nat) : Int) := Int.natCast_nonneg _
          omega


/-- C1 witness: the amended theorem applied to the midnight-straddling pair,
where the full-day count is 0. -/
theorem getDaysUntilWatering_elapsed_days_witness :
    (getDaysUntilWatering (some 1441) 1439 = some 0)
    ↔ ((1441 : Int) - 1439).natAbs < 1440 :=
  ((getDaysUntilWatering_elapsed_days 1439 (some 1441)).2 1441 rfl).1

/-- Helper: the shared frequency normalisation always lands in [1, 30]
when the field is numeric, and is exactly 7 otherwise. -/
theorem frequencyOf_bounds (parsed : ParsedAdvice) :
    1 ≤ frequencyOf parsed ∧ frequencyOf parsed ≤ 30 := by
  rcases hp : parsed.frequency_days with _ | v
  · simp only [frequencyOf, hp]
    omega
  · rcases v with s | q | _ <;> simp only [frequencyOf, hp] <;> omega

/-- C3: every advice record produced by either validation path stores a
frequencyDays in [1, 30]: a numeric frequency_days is rounded and clamped
(45 is stored as 30, 0 as 1) and an absent or non-numeric value defaults to
7 — in the development direct-parse path and in the production
serverless-proxied path alike. -/
theorem advice_frequencyDays_clamped :
    (∀ (parsed : ParsedAdvice) (w : WateringAdvice),
        parseAdviceResponse parsed = .ok w →
          1 ≤ w.frequencyDays ∧ w.frequencyDays ≤ 30)
    ∧ (∀ parsed : ParsedAdvice,
        1 ≤ (productionPath parsed).frequencyDays
        ∧ (productionPath parsed).frequencyDays ≤ 30)
    ∧ parseAdviceResponse ⟨some (.jstr "x"), some (.jnum 45), none, none⟩
        = .ok { advice := "x", frequencyDays := 30, bestTime := "mañana", amount := "moderada" }
    ∧ parseAdviceResponse ⟨some (.jstr "x"), some (.jnum 0), none, none⟩
        = .ok { advice := "x", frequencyDays := 1, bestTime := "mañana", amount := "moderada" }
    ∧ parseAdviceResponse ⟨some (.jstr "x"), none, none, none⟩
        = .ok { advice := "x", frequencyDays := 7, bestTime := "mañana", amount := "moderada" }
    ∧ (productionPath ⟨some (.jstr "x"), some (.jnum 45), none, none⟩).frequencyDays = 30
    ∧ (productionPath ⟨some (.jstr "x"), some (.jnum 0), none, none⟩).frequencyDays = 1
    ∧ (productionPath ⟨some (.jstr "x"), none, none, none⟩).frequencyDays = 7 := by
  refine ⟨?_, ?_, by decide, by decide, by decide, by decide, by decide, by decide⟩
  · intro parsed w h
    unfold parseAdviceResponse at h
    by_cases hadv : adviceStringOf parsed = ""
    · simp [hadv] at h
    · simp [hadv] at h
      have hw : w.frequencyDays = frequencyOf parsed := by
        rw [← h]
      rw [hw]
      exact frequencyOf_bounds parsed
  · intro parsed
    have hb := frequencyOf_bounds parsed
    unfold productionPath generateAdviceProduction handlerNormalize
    dsimp only
    split
    · omega
    · omega

/-- C3 witness: the development validator applied to the out-of-range input
45, whose stored record carries the clamped value 30. -/
theorem advice_frequencyDays_clamped_witness :
    1 ≤ ({ advice := "x", frequencyDays := 30, bestTime := "mañana", amount := "moderada" } : WateringAdvice).frequencyDays
    ∧ ({ advice := "x", frequencyDays := 30, bestTime := "mañana", amount := "moderada" } : WateringAdvice).frequencyDays ≤ 30 :=
  advice_frequencyDays_clamped.1 ⟨some (.jstr "x"), some (.jnum 45), none, none⟩
    { advice := "x", frequencyDays := 30, bestTime := "mañana", amount := "moderada" }
    (by decide)

/-- C4 counterexample: a model reply with no advice text is rejected by the
development direct-parse path but sails through the serverless proxy, whose
200 body carries an empty advice string that the production client converts
into a success record with empty text; fed to the acquisition flow, that
record is persisted onto the plant. -/
theorem empty_advice_proxied_cex :
    parseAdviceResponse ⟨none, some (.jnum 7), some (.jstr "mañana"), some (.jstr "moderada")⟩
      = .error "La IA no proporcionó consejos de texto"
    ∧ productionPath ⟨none, some (.jnum 7), some (.jstr "mañana"), some (.jstr "moderada")⟩
      = { advice := "", frequencyDays := 7, bestTime := "mañana", amount := "moderada" }
    ∧ (fetchAndSave
        (some { id := "p1", nickname := none, species := "Echeveria", type := "Suculenta"
              , createdAt := 0, lastWatered := none, wateringAdvice := none })
        (some { country := "España", city := none }) false .loading 0 ⟨(6 : Fin 12)⟩
        { apiResult := .ok (productionPath ⟨none, some (.jnum 7), some (.jstr "mañana"), some (.jstr "moderada")⟩)
        , primarySaveOk := true, fallbackSaveOk := true }).savedAdvice
      = some { text := "", frequencyDays := 7, bestTime := "mañana", amount := "moderada"
             , generatedAt := 0, season := .verano, location := "España", isFallback := false } := by
  refine ⟨by decide, by decide, by decide⟩

/-- C4 amended: a response whose advice field is absent, non-string or empty
is treated as malformed only by the development direct-parse path, which
fails (triggering the static fallback); the serverless-proxied path
normalises it to the empty string, returns status 200, and the production
client accepts it, so the acquisition flow can persist an advice record
whose text is empty. -/
theorem empty_advice_paths_diverge (parsed : ParsedAdvice)
    (h : adviceStringOf parsed = "") :
    parseAdviceResponse parsed = .error "La IA no proporcionó consejos de texto"
    ∧ (productionPath parsed).advice = "" := by
  constructor
  · unfold parseAdviceResponse
    simp [h]
  · unfold productionPath generateAdviceProduction handlerNormalize
    simpa using h

/-- C4 witness: the amended theorem applied to the reply with an absent
advice field. -/
theorem empty_advice_paths_diverge_witness :
    parseAdviceResponse ⟨none, some (.jnum 7), some (.jstr "mañana"), some (.jstr "moderada")⟩
      = .error "La IA no proporcionó consejos de texto"
    ∧ (productionPath ⟨none, some (.jnum 7), some (.jstr "mañana"), some (.jstr "moderada")⟩).advice = "" :=
  empty_advice_paths_diverge ⟨none, some (.jnum 7), some (.jstr "mañana"), some (.jstr "moderada")⟩ rfl

/-- C2 counterexample: a run of the acquisition flow where the API call
fails AND the fallback persist write also fails still ends in Success (the
inner catch swallows the storage error), with nothing persisted; the claim
requires the Error state exactly there. -/
theorem fetchAndSave_fallback_save_failure_cex :
    (fetchAndSave
        (some { id := "p1", nickname := none, species := "Echeveria", type := "Suculenta"
              , createdAt := 0, lastWatered := none, wateringAdvice := none })
        (some { country := "España", city := none }) false .loading 0 ⟨(6 : Fin 12)⟩
        { apiResult := .error "network failure", primarySaveOk := true
        , fallbackSaveOk := false }).status = .success
    ∧ (fetchAndSave
        (some { id := "p1", nickname := none, species := "Echeveria", type := "Suculenta"
              , createdAt := 0, lastWatered := none, wateringAdvice := none })
        (some { country := "España", city := none }) false .loading 0 ⟨(6 : Fin 12)⟩
        { apiResult := .error "network failure", primarySaveOk := true
        , fallbackSaveOk := false }).status ≠ .error
    ∧ (fetchAndSave
        (some { id := "p1", nickname := none, species := "Echeveria", type := "Suculenta"
              , createdAt := 0, lastWatered := none, wateringAdvice := none })
        (some { country := "España", city := none }) false .loading 0 ⟨(6 : Fin 12)⟩
        { apiResult := .error "network failure", primarySaveOk := true
        , fallbackSaveOk := false }).savedAdvice = none := by
  refine ⟨by decide, by decide, by decide⟩

/-- C2 amended: every failure inside the advice acquisition flow — network
error, malformed response, non-2xx status, the primary persist, and ALSO a
storage-write failure while persisting the fallback advice record — is
absorbed into a fallback success; the Error state is never entered by a run
of fetchAndSave, and the status can only read Error when the flow exited
early (missing plant or settings) with the status already Error. -/
theorem fetchAndSave_error_state_unreachable :
    ∀ (plant : Option Plant) (settings : Option LocationSettings)
      (isRegeneration : Bool) (prevStatus : AdviceStatus) (now : Timestamp)
      (nowDate : JsDate) (env : FetchEnv),
      (fetchAndSave plant settings isRegeneration prevStatus now nowDate env).status = .error
      ↔ ((plant = none ∨ settings = none) ∧ prevStatus = .error) := by
  intro plant settings isRegeneration prevStatus now nowDate env
  rcases plant with _ | p
  · simp [fetchAndSave]
  · rcases settings with _ | s
    · simp [fetchAndSave]
    · have hstat : (fetchAndSave (some p) (some s) isRegeneration prevStatus now nowDate env).status
          = .success := by
        simp only [fetchAndSave]
        split
        · rfl
        · cases env.apiResult with
          | error e => rfl
          | ok r =>
            dsimp only
            split
            · rfl
            · rfl
      rw [hstat]
      simp

/-- C9: markAsWatered is a no-op — no WateringLog appended and no plant
field changed — whenever the plant id is missing (undefined or empty), an
identical operation is already in flight, or the plant was already watered
on the current calendar day. -/
theorem markAsWatered_noop_guards :
    ∀ (plantId : Option String) (lastWatered : Option Timestamp)
      (isMarking : Bool) (now : Timestamp) (newLogId : String) (txOk : Bool)
      (db : WateringDb),
      (jsTruthyString plantId = false ∨ isMarking = true
        ∨ alreadyWateredToday lastWatered now = true) →
      markAsWatered plantId lastWatered isMarking now newLogId txOk db = db := by
  intro plantId lastWatered isMarking now newLogId txOk db h
  unfold markAsWatered
  rw [if_pos]
  rcases h with h | h | h
  · exact Or.inl (by simp [h])
  · exact Or.inr (Or.inl (by simp [h]))
  · exact Or.inr (Or.inr (by simp [h]))

/-- C9 witness: the guard theorem applied to a call with no plant id against
a small concrete store. -/
theorem markAsWatered_noop_guards_witness :
    markAsWatered none none false 0 "log-1" true { plants := [], wateringLogs := [] }
      = { plants := [], wateringLogs := [] } :=
  markAsWatered_noop_guards none none false 0 "log-1" true
    { plants := [], wateringLogs := [] } (Or.inl rfl)

/-- C6 counterexample: a tick where the gate passes, one plant needs water,
and the dispatch fails (sendWateringNotification returned false) records no
lastNotificationSent — the settings are unchanged — so the gate passes again
one minute later within the same calendar day, contrary to the claim that
the stamp is recorded whether or not a notification was shown.  Concretely:
reminder time "09:00", last sent on day 4 (minute 5760), now day 5 at 09:30
(minute 7770), and again at 09:31 (minute 7831). -/
theorem checkAndNotify_dispatch_failure_cex :
    shouldSendNotification
      { notificationsEnabled := true, notificationPermission := "granted"
      , notificationTime := "09:00", lastNotificationSent := some 5760 } 7770 = true
    ∧ checkAndNotify
        (some { notificationsEnabled := true, notificationPermission := "granted"
              , notificationTime := "09:00", lastNotificationSent := some 5760 }) 7770
        [{ id := "p1", displayName := "Aloe", daysOverdue := 0 }] false true
      = (some { notificationsEnabled := true, notificationPermission := "granted"
              , notificationTime := "09:00", lastNotificationSent := some 5760 }, false)
    ∧ isSameDay 7770 7831 = true
    ∧ shouldSendNotification
        { notificationsEnabled := true, notificationPermission := "granted"
        , notificationTime := "09:00", lastNotificationSent := some 5760 } 7831 = true := by
  refine ⟨by decide, by decide, by decide, by decide⟩

/-- C6 amended: on a scheduler tick that passes the shouldSendNotification
gate, the lastNotificationSent stamp is recorded as now when the needs-water
set is empty or the dispatch succeeded (and the gate then stays closed for
the rest of that calendar day, assuming the settings write itself lands);
when the set is non-empty and the dispatch fails, nothing is recorded and
the settings are returned unchanged. -/
theorem checkAndNotify_recording_spec :
    ∀ (s : UserSettings) (now : Timestamp) (plants : List PlantNeedingWater)
      (sendOk updateOk : Bool),
      shouldSendNotification s now = true →
      ((plants.isEmpty = true ∨ sendOk = true) → updateOk = true →
        (checkAndNotify (some s) now plants sendOk updateOk).1
          = some { s with lastNotificationSent := some now }
        ∧ ∀ now2 : Timestamp, isSameDay now now2 = true →
            shouldSendNotification { s with lastNotificationSent := some now } now2 = false)
      ∧ (plants.isEmpty = false → sendOk = false →
          checkAndNotify (some s) now plants sendOk updateOk = (some s, false)) := by
  intro s now plants sendOk updateOk hgate
  constructor
  · intro hrec hupd
    constructor
    · rcases hrec with he | hsend
      · simp [checkAndNotify, hgate, he, markNotificationSent, hupd]
      · by_cases he : plants.isEmpty
        · simp [checkAndNotify, hgate, he, markNotificationSent, hupd]
        · simp [checkAndNotify, hgate, he, hsend, markNotificationSent, hupd]
    · intro now2 hsame
      unfold shouldSendNotification
      split_ifs <;> simp_all
  · intro hne hsf
    simp [checkAndNotify, hgate, hne, hsf]

/-- C6 witness: the amended theorem applied to a tick with an empty
needs-water set; the stamp advances to now (minute 7770, day 5). -/
theorem checkAndNotify_recording_spec_witness :
    (checkAndNotify
        (some { notificationsEnabled := true, notificationPermission := "granted"
              , notificationTime := "09:00", lastNotificationSent := some 5760 }) 7770
        [] false true).1
      = some { notificationsEnabled := true, notificationPermission := "granted"
             , notificationTime := "09:00", lastNotificationSent := some 7770 } :=
  ((checkAndNotify_recording_spec
      { notificationsEnabled := true, notificationPermission := "granted"
      , notificationTime := "09:00", lastNotificationSent := some 5760 } 7770
      [] false true (by decide)).1 (Or.inl rfl) rfl).1

/-- C7: the watering-status filter stage keeps, relative to the urgency
classifier at the same instant: everything for All; exactly the never
watered plants for NoData; exactly the Urgent and Warning plants for
NeedsWater; exactly the Ok plants for Ok. -/
theorem filterByWateringStatus_spec :
    ∀ (plants : List Plant) (now : Timestamp),
      filterByWateringStatus plants .all now = plants
      ∧ (∀ p : Plant, p ∈ filterByWateringStatus plants .no_data now ↔
          p ∈ plants ∧ p.lastWatered = none)
      ∧ (∀ p : Plant, p ∈ filterByWateringStatus plants .needs_water now ↔
          p ∈ plants ∧ (getWateringUrgency p now = .urgent ∨ getWateringUrgency p now = .warning))
      ∧ (∀ p : Plant, p ∈ filterByWateringStatus plants .ok now ↔
          p ∈ plants ∧ getWateringUrgency p now = .ok) := by
  intro plants now
  refine ⟨rfl, ?_, ?_, ?_⟩
  · intro p
    simp [filterByWateringStatus, List.mem_filter, Option.isNone_iff_eq_none]
  · intro p
    simp [filterByWateringStatus, List.mem_filter]
  · intro p
    simp [filterByWateringStatus, List.mem_filter]

/-- Helper: appending a fresh array leaves every existing cell readable
unchanged. -/
theorem readRef_append_lt (st : ArrayStore) (xs : List Plant) (i : Nat)
    (h : i < st.length) : readRef (st ++ [xs]) i = readRef st i := by
  unfold readRef
  rw [List.getElem?_append, if_pos h]

/-- Helper: the freshly appended array holds its contents. -/
theorem readRef_append_last (st : ArrayStore) (xs : List Plant) :
    readRef (st ++ [xs]) st.length = xs := by
  unfold readRef
  rw [List.getElem?_concat_length]
  rfl

/-- Helper: overwriting the freshly appended cell leaves every existing cell
readable unchanged. -/
theorem readRef_set_append_lt (st : ArrayStore) (xs v : List Plant) (i : Nat)
    (h : i < st.length) :
    readRef ((st ++ [xs]).set st.length v) i = readRef st i := by
  unfold readRef
  rw [List.getElem?_set, if_neg (by omega), List.getElem?_append, if_pos h]

/-- Helper: the overwritten fresh cell holds the new contents. -/
theorem readRef_set_append_last (st : ArrayStore) (xs v : List Plant) :
    readRef ((st ++ [xs]).set st.length v) st.length = v := by
  unfold readRef
  rw [List.getElem?_set, if_pos rfl, if_pos (by simp)]
  rfl

/-- Search stage at the reference level: preserves every pre-existing cell,
never shrinks the store, returns a valid reference whose contents are the
value-level search result. -/
theorem searchPlantsRef_spec (st : ArrayStore) (r : Ref) (term : String)
    (h : r < st.length) :
    (∀ i, i < st.length → readRef (searchPlantsRef st r term).1 i = readRef st i)
    ∧ st.length ≤ (searchPlantsRef st r term).1.length
    ∧ (searchPlantsRef st r term).2 < (searchPlantsRef st r term).1.length
    ∧ readRef (searchPlantsRef st r term).1 (searchPlantsRef st r term).2
        = searchPlants (readRef st r) term := by
  unfold searchPlantsRef
  by_cases hc : term.trim.toLower = ""
  · rw [if_pos hc]
    exact ⟨fun i _ => rfl, le_refl _, h, by simp [searchPlants, hc]⟩
  · rw [if_neg hc]
    unfold allocRef
    exact ⟨fun i hi => readRef_append_lt st _ i hi, by simp, by simp,
      readRef_append_last st _⟩

/-- Status-filter stage at the reference level: same shape as the search
stage. -/
theorem filterByWateringStatusRef_spec (st : ArrayStore) (r : Ref)
    (status : WateringStatusFilter) (now : Timestamp) (h : r < st.length) :
    (∀ i, i < st.length →
        readRef (filterByWateringStatusRef st r status now).1 i = readRef st i)
    ∧ st.length ≤ (filterByWateringStatusRef st r status now).1.length
    ∧ (filterByWateringStatusRef st r status now).2
        < (filterByWateringStatusRef st r status now).1.length
    ∧ readRef (filterByWateringStatusRef st r status now).1
        (filterByWateringStatusRef st r status now).2
        = filterByWateringStatus (readRef st r) status now := by
  unfold filterByWateringStatusRef
  by_cases hc : status = WateringStatusFilter.all
  · rw [if_pos hc]
    exact ⟨fun i _ => rfl, le_refl _, h, by simp [filterByWateringStatus, hc]⟩
  · rw [if_neg hc]
    unfold allocRef
    exact ⟨fun i hi => readRef_append_lt st _ i hi, by simp, by simp,
      readRef_append_last st _⟩

/-- Type-filter stage at the reference level: same shape. -/
theorem filterByTypeRef_spec (st : ArrayStore) (r : Ref)
    (plantType : Option String) (h : r < st.length) :
    (∀ i, i < st.length → readRef (filterByTypeRef st r plantType).1 i = readRef st i)
    ∧ st.length ≤ (filterByTypeRef st r plantType).1.length
    ∧ (filterByTypeRef st r plantType).2 < (filterByTypeRef st r plantType).1.length
    ∧ readRef (filterByTypeRef st r plantType).1 (filterByTypeRef st r plantType).2
        = filterByType (readRef st r) plantType := by
  rcases plantType with _ | t
  · exact ⟨fun i _ => rfl, le_refl _, h, rfl⟩
  · unfold filterByTypeRef allocRef
    exact ⟨fun i hi => readRef_append_lt st _ i hi, by simp, by simp,
      readRef_append_last st _⟩

/-- Sort stage at the reference level: it allocates the spread copy and
overwrites only that copy, so every pre-existing cell — in particular the
caller array — is untouched. -/
theorem sortPlantsRef_spec (st : ArrayStore) (r : Ref) (sortBy : PlantSortOption)
    (now : Timestamp) :
    (∀ i, i < st.length → readRef (sortPlantsRef st r sortBy now).1 i = readRef st i)
    ∧ st.length ≤ (sortPlantsRef st r sortBy now).1.length
    ∧ (sortPlantsRef st r sortBy now).2 < (sortPlantsRef st r sortBy now).1.length
    ∧ readRef (sortPlantsRef st r sortBy now).1 (sortPlantsRef st r sortBy now).2
        = sortPlants (readRef st r) sortBy now := by
  unfold sortPlantsRef writeRef
  refine ⟨fun i hi => readRef_set_append_lt st _ _ i hi, by simp, by simp, ?_⟩
  exact readRef_set_append_last st _ _

/-- The whole pipeline at the reference level refines the value-level
applyFilters and never writes to any pre-existing array. -/
theorem applyFiltersRef_spec (st : ArrayStore) (r : Ref)
    (options : PlantFilterOptions) (now : Timestamp) (h : r < st.length) :
    (∀ i, i < st.length → readRef (applyFiltersRef st r options now).1 i = readRef st i)
    ∧ st.length ≤ (applyFiltersRef st r options now).1.length
    ∧ (applyFiltersRef st r options now).2 < (applyFiltersRef st r options now).1.length
    ∧ readRef (applyFiltersRef st r options now).1 (applyFiltersRef st r options now).2
        = applyFilters (readRef st r) options now := by
  obtain ⟨hp1, hl1, hr1, hc1⟩ := searchPlantsRef_spec st r options.searchTerm h
  obtain ⟨hp2, hl2, hr2, hc2⟩ := filterByWateringStatusRef_spec
    (searchPlantsRef st r options.searchTerm).1 (searchPlantsRef st r options.searchTerm).2
    options.wateringStatus now hr1
  obtain ⟨hp3, hl3, hr3, hc3⟩ := filterByTypeRef_spec
    (filterByWateringStatusRef (searchPlantsRef st r options.searchTerm).1
      (searchPlantsRef st r options.searchTerm).2 options.wateringStatus now).1
    (filterByWateringStatusRef (searchPlantsRef st r options.searchTerm).1
      (searchPlantsRef st r options.searchTerm).2 options.wateringStatus now).2
    options.plantType hr2
  obtain ⟨hp4, hl4, hr4, hc4⟩ := sortPlantsRef_spec
    (filterByTypeRef
      (filterByWateringStatusRef (searchPlantsRef st r options.searchTerm).1
        (searchPlantsRef st r options.searchTerm).2 options.wateringStatus now).1
      (filterByWateringStatusRef (searchPlantsRef st r options.searchTerm).1
        (searchPlantsRef st r options.searchTerm).2 options.wateringStatus now).2
      options.plantType).1
    (filterByTypeRef
      (filterByWateringStatusRef (searchPlantsRef st r options.searchTerm).1
        (searchPlantsRef st r options.searchTerm).2 options.wateringStatus now).1
      (filterByWateringStatusRef (searchPlantsRef st r options.searchTerm).1
        (searchPlantsRef st r options.searchTerm).2 options.wateringStatus now).2
      options.plantType).2
    options.sortBy now
  refine ⟨?_, ?_, ?_, ?_⟩
  · intro i hi
    show readRef (applyFiltersRef st r options now).1 i = readRef st i
    unfold applyFiltersRef
    rw [hp4 i (lt_of_lt_of_le hi (le_trans hl1 (le_trans hl2 hl3))),
      hp3 i (lt_of_lt_of_le hi (le_trans hl1 hl2)),
      hp2 i (lt_of_lt_of_le hi hl1), hp1 i hi]
  · show st.length ≤ (applyFiltersRef st r options now).1.length
    unfold applyFiltersRef
    exact le_trans hl1 (le_trans hl2 (le_trans hl3 hl4))
  · show (applyFiltersRef st r options now).2 < (applyFiltersRef st r options now).1.length
    unfold applyFiltersRef
    exact hr4
  · show readRef (applyFiltersRef st r options now).1 (applyFiltersRef st r options now).2
      = applyFilters (readRef st r) options now
    unfold applyFiltersRef
    rw [hc4, hc3, hc2, hc1]
    rfl

/-- C8: applyFilters, run at the level of array references, is deterministic
and non-mutating: running the pipeline twice on the same input array (the
same reference, with the same options and the same now) yields element-wise
identical output — both runs read back exactly the value-level applyFilters
result — and after both runs the input array still holds its original
elements, untouched by the in-place sort, which only ever writes the spread
copy it allocated. -/
theorem applyFilters_deterministic_nonmutating :
    ∀ (plants : List Plant) (options : PlantFilterOptions) (now : Timestamp),
      readRef (applyFiltersRef [plants] 0 options now).1
          (applyFiltersRef [plants] 0 options now).2
        = applyFilters plants options now
      ∧ readRef (applyFiltersRef (applyFiltersRef [plants] 0 options now).1 0 options now).1
          (applyFiltersRef (applyFiltersRef [plants] 0 options now).1 0 options now).2
        = applyFilters plants options now
      ∧ readRef (applyFiltersRef [plants] 0 options now).1 0 = plants
      ∧ readRef (applyFiltersRef (applyFiltersRef [plants] 0 options now).1 0 options now).1 0
        = plants := by
  intro plants options now
  have h0 : (0 : Nat) < ([plants] : ArrayStore).length := by simp
  have hr0 : readRef [plants] 0 = plants := rfl
  obtain ⟨hp1, hl1, hr1, hc1⟩ := applyFiltersRef_spec [plants] 0 options now h0
  have h02 : (0 : Nat) < (applyFiltersRef [plants] 0 options now).1.length :=
    lt_of_lt_of_le h0 hl1
  have hread : readRef (applyFiltersRef [plants] 0 options now).1 0 = plants := by
    rw [hp1 0 h0, hr0]
  obtain ⟨hp2, hl2, hr2, hc2⟩ :=
    applyFiltersRef_spec (applyFiltersRef [plants] 0 options now).1 0 options now h02
  refine ⟨by rw [hc1, hr0], by rw [hc2, hread], hread, by rw [hp2 0 h02, hread]⟩

end PlantCare
